import Mathlib

/-! Verification of the GUST86 analytic orbit propagation engine of
`src/trunk/src/main/astro/Gust86.cpp` (angle propagation, perturbation
series, the non-singular Kepler solver, rectangular state reconstruction,
frame rotation and the orbit facade). The C code is shallowly embedded:
doubles become real numbers, the static constant arrays become explicit
tables, and the unbounded Newton loop becomes a fuel-indexed recursion in
which `none` means the loop has not exited within the given number of
iterations.
-/

namespace Gust86

noncomputable section

/-- C `fmod`: remainder with the sign of the dividend,
`fmod(x, y) = x - y * trunc(x / y)` for `y > 0`. -/
def cfmod (x y : ℝ) : ℝ :=
  if 0 ≤ x then x - y * (⌊x / y⌋ : ℝ) else x - y * (⌈x / y⌉ : ℝ)

/-- The closed five-value enumeration `Gust86Orbit::Satellite`. -/
inductive Satellite where
  | Miranda
  | Ariel
  | Umbriel
  | Titania
  | Oberon

/-- Satellite table index, `(int) satellite`. -/
def satIndex : Satellite → Fin 5
  | .Miranda => 0
  | .Ariel => 1
  | .Umbriel => 2
  | .Titania => 3
  | .Oberon => 4

/-- The fixed 3×3 frame rotation constant `GUST86toJ2000`, read row-major.
`Gust86Orbit::state` builds `Matrix3d(GUST86toJ2000).transpose()`; Eigen
fills column-major, so the matrix actually applied to vectors is the
row-major reading of the literal array, which is this matrix. -/
def GUST86toJ2000 : Matrix (Fin 3) (Fin 3) ℝ :=
  !![9.753205572598290957e-01, 6.194437810676107434e-02, 2.119261772583629030e-01;
     -2.207428547845518695e-01, 2.529905336992995280e-01, 9.419492459363773150e-01;
     4.733143558215848563e-03, -9.654836528287313313e-01, 2.604206471702025216e-01]

/-- The static constant tables of Gust86.cpp (`fqn`, `fqe`, `fqi`, `phn`,
`phe`, `phi`, `gust86_rmu`, `GUST86toJ2000`): the process-wide read-only
data the computation consults. -/
structure Gust86Tables where
  fqn : Fin 5 → ℝ
  fqe : Fin 5 → ℝ
  fqi : Fin 5 → ℝ
  phn : Fin 5 → ℝ
  phe : Fin 5 → ℝ
  phi : Fin 5 → ℝ
  rmu : Fin 5 → ℝ
  rot : Matrix (Fin 3) (Fin 3) ℝ

/-- The literal constant tables exactly as in Gust86.cpp. -/
def gust86Tables : Gust86Tables where
  fqn := ![4.44519055, 2.492952519, 1.516148111, 0.721718509, 0.46669212]
  fqe := ![20.082 * Real.pi / (180 * 365.25), 6.217 * Real.pi / (180 * 365.25),
           2.865 * Real.pi / (180 * 365.25), 2.078 * Real.pi / (180 * 365.25),
           0.386 * Real.pi / (180 * 365.25)]
  fqi := ![-20.309 * Real.pi / (180 * 365.25), -6.288 * Real.pi / (180 * 365.25),
           -2.836 * Real.pi / (180 * 365.25), -1.843 * Real.pi / (180 * 365.25),
           -0.259 * Real.pi / (180 * 365.25)]
  phn := ![-0.238051, 3.098046, 2.285402, 0.856359, -0.915592]
  phe := ![0.611392, 2.408974, 2.067774, 0.735131, 0.426767]
  phi := ![5.702313, 0.395757, 0.589326, 1.746237, 4.206896]
  rmu := ![1.291892353675174e-08, 1.291910570526396e-08, 1.291910102284198e-08,
           1.291942656265575e-08, 1.291935967091320e-08]
  rot := GUST86toJ2000

/-- Angle propagator `an[i] = fmod(fqn[i] * t + phn[i], 2π)` from
`CalcGust86Elem`. -/
def anglesN (tab : Gust86Tables) (t : ℝ) (i : Fin 5) : ℝ :=
  cfmod (tab.fqn i * t + tab.phn i) (2 * Real.pi)

/-- Angle propagator `ae[i] = fmod(fqe[i] * t + phe[i], 2π)` from
`CalcGust86Elem`. -/
def anglesE (tab : Gust86Tables) (t : ℝ) (i : Fin 5) : ℝ :=
  cfmod (tab.fqe i * t + tab.phe i) (2 * Real.pi)

/-- Angle propagator `ai[i] = fmod(fqi[i] * t + phi[i], 2π)` from
`CalcGust86Elem`. -/
def anglesI (tab : Gust86Tables) (t : ℝ) (i : Fin 5) : ℝ :=
  cfmod (tab.fqi i * t + tab.phi i) (2 * Real.pi)


/-- Element elements[0] for Miranda, from CalcGust86Elem. -/
noncomputable def mirandaElem0 (an ae ai : Fin 5 → ℝ) : ℝ :=
      4.44352267
      - Real.cos (an 0 - an 1 * 3 + an 2 * 2) * 3.492e-5
      + Real.cos (an 0 * 2 - an 1 * 6 + an 2 * 4) * 8.47e-6
      + Real.cos (an 0 * 3 - an 1 * 9 + an 2 * 6) * 1.31e-6
      - Real.cos (an 0 - an 1 ) * 5.228e-5
      - Real.cos (an 0 * 2 - an 1 * 2 ) * 1.3665e-4

/-- Trigonometric series part of elements[1] (mean longitude) for Miranda, from CalcGust86Elem. -/
noncomputable def mirandaLser (an ae ai : Fin 5 → ℝ) : ℝ :=
      Real.sin (an 0 - an 1 * 3 + an 2 * 2) * 0.02547217
      - Real.sin (an 0 * 2 - an 1 * 6 + an 2 * 4) * 0.00308831
      - Real.sin (an 0 * 3 - an 1 * 9 + an 2 * 6) * 3.181e-4
      - Real.sin (an 0 * 4 - an 1 * 12 + an 2 * 8) * 3.749e-5
      - Real.sin (an 0 - an 1 ) * 5.785e-5
      - Real.sin (an 0 * 2 - an 1 * 2 ) * 6.232e-5
      - Real.sin (an 0 * 3 - an 1 * 3 ) * 2.795e-5

/-- Mean-longitude element (elements[1]) for Miranda: series plus the secular term, from CalcGust86Elem. -/
noncomputable def mirandaElem1 (t : ℝ) (an ae ai : Fin 5 → ℝ) : ℝ :=
      mirandaLser an ae ai + (t * 4.44519055 - 0.23805158)

/-- Element elements[2] for Miranda, from CalcGust86Elem. -/
noncomputable def mirandaElem2 (an ae ai : Fin 5 → ℝ) : ℝ :=
      Real.cos (ae 0) * 0.00131238
      + Real.cos (ae 1) * 7.181e-5
      + Real.cos (ae 2) * 6.977e-5
      + Real.cos (ae 3) * 6.75e-6
      + Real.cos (ae 4) * 6.27e-6
      + Real.cos (an 0) * 1.941e-4
      - Real.cos (-an 0 + an 1 * 2) * 1.2331e-4
      + Real.cos (an 0 * (-2) + an 1 * 3) * 3.952e-5

/-- Element elements[3] for Miranda, from CalcGust86Elem. -/
noncomputable def mirandaElem3 (an ae ai : Fin 5 → ℝ) : ℝ :=
      Real.sin (ae 0) * 0.00131238
      + Real.sin (ae 1) * 7.181e-5
      + Real.sin (ae 2) * 6.977e-5
      + Real.sin (ae 3) * 6.75e-6
      + Real.sin (ae 4) * 6.27e-6
      + Real.sin (an 0) * 1.941e-4
      - Real.sin (-an 0 + an 1 * 2) * 1.2331e-4
      + Real.sin (an 0 * (-2) + an 1 * 3) * 3.952e-5

/-- Element elements[4] for Miranda, from CalcGust86Elem. -/
noncomputable def mirandaElem4 (an ae ai : Fin 5 → ℝ) : ℝ :=
      Real.cos (ai 0) * 0.03787171
      + Real.cos (ai 1) * 2.701e-5
      + Real.cos (ai 2) * 3.076e-5
      + Real.cos (ai 3) * 1.218e-5
      + Real.cos (ai 4) * 5.37e-6

/-- Element elements[5] for Miranda, from CalcGust86Elem. -/
noncomputable def mirandaElem5 (an ae ai : Fin 5 → ℝ) : ℝ :=
      Real.sin (ai 0) * 0.03787171
      + Real.sin (ai 1) * 2.701e-5
      + Real.sin (ai 2) * 3.076e-5
      + Real.sin (ai 3) * 1.218e-5
      + Real.sin (ai 4) * 5.37e-6

/-- Element elements[0] for Ariel, from CalcGust86Elem. -/
noncomputable def arielElem0 (an ae ai : Fin 5 → ℝ) : ℝ :=
      2.49254257
      + Real.cos (an 0 - an 1 * 3 + an 2 * 2) * 2.55e-6
      - Real.cos ( an 1 - an 2 ) * 4.216e-5
      - Real.cos ( an 1 * 2 - an 2 * 2) * 1.0256e-4

/-- Trigonometric series part of elements[1] (mean longitude) for Ariel, from CalcGust86Elem. -/
noncomputable def arielLser (an ae ai : Fin 5 → ℝ) : ℝ :=
      - Real.sin (an 0 - an 1 * 3 + an 2 * 2) * 0.0018605
      + Real.sin (an 0 * 2 - an 1 * 6 + an 2 * 4) * 2.1999e-4
      + Real.sin (an 0 * 3 - an 1 * 9 + an 2 * 6) * 2.31e-5
      + Real.sin (an 0 * 4 - an 1 * 12 + an 2 * 8) * 4.3e-6
      - Real.sin ( an 1 - an 2 ) * 9.011e-5
      - Real.sin ( an 1 * 2 - an 2 * 2) * 9.107e-5
      - Real.sin ( an 1 * 3 - an 2 * 3) * 4.275e-5
      - Real.sin ( an 1 * 2 - an 3 * 2) * 1.649e-5

/-- Mean-longitude element (elements[1]) for Ariel: series plus the secular term, from CalcGust86Elem. -/
noncomputable def arielElem1 (t : ℝ) (an ae ai : Fin 5 → ℝ) : ℝ :=
      arielLser an ae ai + (t * 2.49295252 + 3.09804641)

/-- Element elements[2] for Ariel, from CalcGust86Elem. -/
noncomputable def arielElem2 (an ae ai : Fin 5 → ℝ) : ℝ :=
      Real.cos (ae 0) * (-3.35e-6)
      + Real.cos (ae 1) * 0.00118763
      + Real.cos (ae 2) * 8.6159e-4
      + Real.cos (ae 3) * 7.15e-5
      + Real.cos (ae 4) * 5.559e-5
      - Real.cos (-an 1 + an 2 * 2) * 8.46e-5
      + Real.cos (an 1 * (-2) + an 2 * 3) * 9.181e-5
      + Real.cos (-an 1 + an 3 * 2) * 2.003e-5
      + Real.cos (an 1) * 8.977e-5

/-- Element elements[3] for Ariel, from CalcGust86Elem. -/
noncomputable def arielElem3 (an ae ai : Fin 5 → ℝ) : ℝ :=
      Real.sin (ae 0) * (-3.35e-6)
      + Real.sin (ae 1) * 0.00118763
      + Real.sin (ae 2) * 8.6159e-4
      + Real.sin (ae 3) * 7.15e-5
      + Real.sin (ae 4) * 5.559e-5
      - Real.sin (-an 1 + an 2 * 2) * 8.46e-5
      + Real.sin (an 1 * (-2) + an 2 * 3) * 9.181e-5
      + Real.sin (-an 1 + an 3 * 2) * 2.003e-5
      + Real.sin (an 1) * 8.977e-5

/-- Element elements[4] for Ariel, from CalcGust86Elem. -/
noncomputable def arielElem4 (an ae ai : Fin 5 → ℝ) : ℝ :=
      Real.cos (ai 0) * (-1.2175e-4)
      + Real.cos (ai 1) * 3.5825e-4
      + Real.cos (ai 2) * 2.9008e-4
      + Real.cos (ai 3) * 9.778e-5
      + Real.cos (ai 4) * 3.397e-5

/-- Element elements[5] for Ariel, from CalcGust86Elem. -/
noncomputable def arielElem5 (an ae ai : Fin 5 → ℝ) : ℝ :=
      Real.sin (ai 0) * (-1.2175e-4)
      + Real.sin (ai 1) * 3.5825e-4
      + Real.sin (ai 2) * 2.9008e-4
      + Real.sin (ai 3) * 9.778e-5
      + Real.sin (ai 4) * 3.397e-5

/-- Element elements[0] for Umbriel, from CalcGust86Elem. -/
noncomputable def umbrielElem0 (an ae ai : Fin 5 → ℝ) : ℝ :=
      1.5159549
      + Real.cos (an 2 - an 3 * 2 + ae 2) * 9.74e-6
      - Real.cos (an 1 - an 2) * 1.06e-4
      + Real.cos (an 1 * 2 - an 2 * 2) * 5.416e-5
      - Real.cos (an 2 - an 3) * 2.359e-5
      - Real.cos (an 2 * 2 - an 3 * 2) * 7.07e-5
      - Real.cos (an 2 * 3 - an 3 * 3) * 3.628e-5

/-- Trigonometric series part of elements[1] (mean longitude) for Umbriel, from CalcGust86Elem. -/
noncomputable def umbrielLser (an ae ai : Fin 5 → ℝ) : ℝ :=
      Real.sin (an 0 - an 1 * 3 + an 2 * 2) * 6.6057e-4
      - Real.sin (an 0 * 2 - an 1 * 6 + an 2 * 4) * 7.651e-5
      - Real.sin (an 0 * 3 - an 1 * 9 + an 2 * 6) * 8.96e-6
      - Real.sin (an 0 * 4 - an 1 * 12 + an 2 * 8) * 2.53e-6
      - Real.sin (an 2 - an 3 * 4 + an 4 * 3) * 5.291e-5
      - Real.sin (an 2 - an 3 * 2 + ae 4) * 7.34e-6
      - Real.sin (an 2 - an 3 * 2 + ae 3) * 1.83e-6
      + Real.sin (an 2 - an 3 * 2 + ae 2) * 1.4791e-4
      + Real.sin (an 2 - an 3 * 2 + ae 1) * (-7.77e-6)
      + Real.sin (an 1 - an 2) * 9.776e-5
      + Real.sin (an 1 * 2 - an 2 * 2) * 7.313e-5
      + Real.sin (an 1 * 3 - an 2 * 3) * 3.471e-5
      + Real.sin (an 1 * 4 - an 2 * 4) * 1.889e-5
      - Real.sin (an 2 - an 3) * 6.789e-5
      - Real.sin (an 2 * 2 - an 3 * 2) * 8.286e-5
      + Real.sin (an 2 * 3 - an 3 * 3) * (-3.381e-5)
      - Real.sin (an 2 * 4 - an 3 * 4) * 1.579e-5
      - Real.sin (an 2 - an 4) * 1.021e-5
      - Real.sin (an 2 * 2 - an 4 * 2) * 1.708e-5

/-- Mean-longitude element (elements[1]) for Umbriel: series plus the secular term, from CalcGust86Elem. -/
noncomputable def umbrielElem1 (t : ℝ) (an ae ai : Fin 5 → ℝ) : ℝ :=
      umbrielLser an ae ai + (t * 1.51614811 + 2.28540169)

/-- Element elements[2] for Umbriel, from CalcGust86Elem. -/
noncomputable def umbrielElem2 (an ae ai : Fin 5 → ℝ) : ℝ :=
      Real.cos (ae 0) * (-2.1e-7)
      - Real.cos (ae 1) * 2.2795e-4
      + Real.cos (ae 2) * 0.00390469
      + Real.cos (ae 3) * 3.0917e-4
      + Real.cos (ae 4) * 2.2192e-4
      + Real.cos (an 1) * 2.934e-5
      + Real.cos (an 2) * 2.62e-5
      + Real.cos (-an 1 + an 2 * 2) * 5.119e-5
      - Real.cos (an 1 * (-2) + an 2 * 3) * 1.0386e-4
      - Real.cos (an 1 * (-3) + an 2 * 4) * 2.716e-5
      + Real.cos (an 3) * (-1.622e-5)
      + Real.cos (-an 2 + an 3 * 2) * 5.4923e-4
      + Real.cos (an 2 * (-2) + an 3 * 3) * 3.47e-5
      + Real.cos (an 2 * (-3) + an 3 * 4) * 1.281e-5
      + Real.cos (-an 2 + an 4 * 2) * 2.181e-5
      + Real.cos (an 2) * 4.625e-5

/-- Element elements[3] for Umbriel, from CalcGust86Elem. -/
noncomputable def umbrielElem3 (an ae ai : Fin 5 → ℝ) : ℝ :=
      Real.sin (ae 0) * (-2.1e-7)
      - Real.sin (ae 1) * 2.2795e-4
      + Real.sin (ae 2) * 0.00390469
      + Real.sin (ae 3) * 3.0917e-4
      + Real.sin (ae 4) * 2.2192e-4
      + Real.sin (an 1) * 2.934e-5
      + Real.sin (an 2) * 2.62e-5
      + Real.sin (-an 1 + an 2 * 2) * 5.119e-5
      - Real.sin (an 1 * (-2) + an 2 * 3) * 1.0386e-4
      - Real.sin (an 1 * (-3) + an 2 * 4) * 2.716e-5
      + Real.sin (an 3) * (-1.622e-5)
      + Real.sin (-an 2 + an 3 * 2) * 5.4923e-4
      + Real.sin (an 2 * (-2) + an 3 * 3) * 3.47e-5
      + Real.sin (an 2 * (-3) + an 3 * 4) * 1.281e-5
      + Real.sin (-an 2 + an 4 * 2) * 2.181e-5
      + Real.sin (an 2) * 4.625e-5

/-- Element elements[4] for Umbriel, from CalcGust86Elem. -/
noncomputable def umbrielElem4 (an ae ai : Fin 5 → ℝ) : ℝ :=
      Real.cos (ai 0) * (-1.086e-5)
      - Real.cos (ai 1) * 8.151e-5
      + Real.cos (ai 2) * 0.00111336
      + Real.cos (ai 3) * 3.5014e-4
      + Real.cos (ai 4) * 1.065e-4

/-- Element elements[5] for Umbriel, from CalcGust86Elem. -/
noncomputable def umbrielElem5 (an ae ai : Fin 5 → ℝ) : ℝ :=
      Real.sin (ai 0) * (-1.086e-5)
      - Real.sin (ai 1) * 8.151e-5
      + Real.sin (ai 2) * 0.00111336
      + Real.sin (ai 3) * 3.5014e-4
      + Real.sin (ai 4) * 1.065e-4

/-- Element elements[0] for Titania, from CalcGust86Elem. -/
noncomputable def titaniaElem0 (an ae ai : Fin 5 → ℝ) : ℝ :=
      0.72166316
      - Real.cos (an 2 - an 3 * 2 + ae 2) * 2.64e-6
      - Real.cos (an 3 * 2 - an 4 * 3 + ae 4) * 2.16e-6
      + Real.cos (an 3 * 2 - an 4 * 3 + ae 3) * 6.45e-6
      - Real.cos (an 3 * 2 - an 4 * 3 + ae 2) * 1.11e-6
      + Real.cos (an 1 - an 3) * (-6.223e-5)
      - Real.cos (an 2 - an 3) * 5.613e-5
      - Real.cos (an 3 - an 4) * 3.994e-5
      - Real.cos (an 3 * 2 - an 4 * 2) * 9.185e-5
      - Real.cos (an 3 * 3 - an 4 * 3) * 5.831e-5
      - Real.cos (an 3 * 4 - an 4 * 4) * 3.86e-5
      - Real.cos (an 3 * 5 - an 4 * 5) * 2.618e-5
      - Real.cos (an 3 * 6 - an 4 * 6) * 1.806e-5

/-- Trigonometric series part of elements[1] (mean longitude) for Titania, from CalcGust86Elem. -/
noncomputable def titaniaLser (an ae ai : Fin 5 → ℝ) : ℝ :=
      Real.sin (an 2 - an 3 * 4 + an 4 * 3) * 2.061e-5
      - Real.sin (an 2 - an 3 * 2 + ae 4) * 2.07e-6
      - Real.sin (an 2 - an 3 * 2 + ae 3) * 2.88e-6
      - Real.sin (an 2 - an 3 * 2 + ae 2) * 4.079e-5
      + Real.sin (an 2 - an 3 * 2 + ae 1) * 2.11e-6
      - Real.sin (an 3 * 2 - an 4 * 3 + ae 4) * 5.183e-5
      + Real.sin (an 3 * 2 - an 4 * 3 + ae 3) * 1.5987e-4
      + Real.sin (an 3 * 2 - an 4 * 3 + ae 2) * (-3.505e-5)
      - Real.sin (an 3 * 3 - an 4 * 4 + ae 4) * 1.56e-6
      + Real.sin (an 1 - an 3) * 4.054e-5
      + Real.sin (an 2 - an 3) * 4.617e-5
      - Real.sin (an 3 - an 4) * 3.1776e-4
      - Real.sin (an 3 * 2 - an 4 * 2) * 3.0559e-4
      - Real.sin (an 3 * 3 - an 4 * 3) * 1.4836e-4
      - Real.sin (an 3 * 4 - an 4 * 4) * 8.292e-5
      + Real.sin (an 3 * 5 - an 4 * 5) * (-4.998e-5)
      - Real.sin (an 3 * 6 - an 4 * 6) * 3.156e-5
      - Real.sin (an 3 * 7 - an 4 * 7) * 2.056e-5
      - Real.sin (an 3 * 8 - an 4 * 8) * 1.369e-5

/-- Mean-longitude element (elements[1]) for Titania: series plus the secular term, from CalcGust86Elem. -/
noncomputable def titaniaElem1 (t : ℝ) (an ae ai : Fin 5 → ℝ) : ℝ :=
      titaniaLser an ae ai + (t * 0.72171851 + 0.85635879)

/-- Element elements[2] for Titania, from CalcGust86Elem. -/
noncomputable def titaniaElem2 (an ae ai : Fin 5 → ℝ) : ℝ :=
      Real.cos (ae 0) * (-2e-8)
      - Real.cos (ae 1) * 1.29e-6
      - Real.cos (ae 2) * 3.2451e-4
      + Real.cos (ae 3) * 9.3281e-4
      + Real.cos (ae 4) * 0.00112089
      + Real.cos (an 1) * 3.386e-5
      + Real.cos (an 3) * 1.746e-5
      + Real.cos (-an 1 + an 3 * 2) * 1.658e-5
      + Real.cos (an 2) * 2.889e-5
      - Real.cos (-an 2 + an 3 * 2) * 3.586e-5
      + Real.cos (an 3) * (-1.786e-5)
      - Real.cos (an 4) * 3.21e-5
      - Real.cos (-an 3 + an 4 * 2) * 1.7783e-4
      + Real.cos (an 3 * (-2) + an 4 * 3) * 7.9343e-4
      + Real.cos (an 3 * (-3) + an 4 * 4) * 9.948e-5
      + Real.cos (an 3 * (-4) + an 4 * 5) * 4.483e-5
      + Real.cos (an 3 * (-5) + an 4 * 6) * 2.513e-5
      + Real.cos (an 3 * (-6) + an 4 * 7) * 1.543e-5

/-- Element elements[3] for Titania, from CalcGust86Elem. -/
noncomputable def titaniaElem3 (an ae ai : Fin 5 → ℝ) : ℝ :=
      Real.sin (ae 0) * (-2e-8)
      - Real.sin (ae 1) * 1.29e-6
      - Real.sin (ae 2) * 3.2451e-4
      + Real.sin (ae 3) * 9.3281e-4
      + Real.sin (ae 4) * 0.00112089
      + Real.sin (an 1) * 3.386e-5
      + Real.sin (an 3) * 1.746e-5
      + Real.sin (-an 1 + an 3 * 2) * 1.658e-5
      + Real.sin (an 2) * 2.889e-5
      - Real.sin (-an 2 + an 3 * 2) * 3.586e-5
      + Real.sin (an 3) * (-1.786e-5)
      - Real.sin (an 4) * 3.21e-5
      - Real.sin (-an 3 + an 4 * 2) * 1.7783e-4
      + Real.sin (an 3 * (-2) + an 4 * 3) * 7.9343e-4
      + Real.sin (an 3 * (-3) + an 4 * 4) * 9.948e-5
      + Real.sin (an 3 * (-4) + an 4 * 5) * 4.483e-5
      + Real.sin (an 3 * (-5) + an 4 * 6) * 2.513e-5
      + Real.sin (an 3 * (-6) + an 4 * 7) * 1.543e-5

/-- Element elements[4] for Titania, from CalcGust86Elem. -/
noncomputable def titaniaElem4 (an ae ai : Fin 5 → ℝ) : ℝ :=
      Real.cos (ai 0) * (-1.43e-6)
      - Real.cos (ai 1) * 1.06e-6
      - Real.cos (ai 2) * 1.4013e-4
      + Real.cos (ai 3) * 6.8572e-4
      + Real.cos (ai 4) * 3.7832e-4

/-- Element elements[5] for Titania, from CalcGust86Elem. -/
noncomputable def titaniaElem5 (an ae ai : Fin 5 → ℝ) : ℝ :=
      Real.sin (ai 0) * (-1.43e-6)
      - Real.sin (ai 1) * 1.06e-6
      - Real.sin (ai 2) * 1.4013e-4
      + Real.sin (ai 3) * 6.8572e-4
      + Real.sin (ai 4) * 3.7832e-4

/-- Element elements[0] for Oberon, from CalcGust86Elem. -/
noncomputable def oberonElem0 (an ae ai : Fin 5 → ℝ) : ℝ :=
      0.46658054
      + Real.cos (an 3 * 2 - an 4 * 3 + ae 4) * 2.08e-6
      - Real.cos (an 3 * 2 - an 4 * 3 + ae 3) * 6.22e-6
      + Real.cos (an 3 * 2 - an 4 * 3 + ae 2) * 1.07e-6
      - Real.cos (an 1 - an 4) * 4.31e-5
      + Real.cos (an 2 - an 4) * (-3.894e-5)
      - Real.cos (an 3 - an 4) * 8.011e-5
      + Real.cos (an 3 * 2 - an 4 * 2) * 5.906e-5
      + Real.cos (an 3 * 3 - an 4 * 3) * 3.749e-5
      + Real.cos (an 3 * 4 - an 4 * 4) * 2.482e-5
      + Real.cos (an 3 * 5 - an 4 * 5) * 1.684e-5

/-- Trigonometric series part of elements[1] (mean longitude) for Oberon, from CalcGust86Elem. -/
noncomputable def oberonLser (an ae ai : Fin 5 → ℝ) : ℝ :=
      - Real.sin (an 2 - an 3 * 4 + an 4 * 3) * 7.82e-6
      + Real.sin (an 3 * 2 - an 4 * 3 + ae 4) * 5.129e-5
      - Real.sin (an 3 * 2 - an 4 * 3 + ae 3) * 1.5824e-4
      + Real.sin (an 3 * 2 - an 4 * 3 + ae 2) * 3.451e-5
      + Real.sin (an 1 - an 4) * 4.751e-5
      + Real.sin (an 2 - an 4) * 3.896e-5
      + Real.sin (an 3 - an 4) * 3.5973e-4
      + Real.sin (an 3 * 2 - an 4 * 2) * 2.8278e-4
      + Real.sin (an 3 * 3 - an 4 * 3) * 1.386e-4
      + Real.sin (an 3 * 4 - an 4 * 4) * 7.803e-5
      + Real.sin (an 3 * 5 - an 4 * 5) * 4.729e-5
      + Real.sin (an 3 * 6 - an 4 * 6) * 3e-5
      + Real.sin (an 3 * 7 - an 4 * 7) * 1.962e-5
      + Real.sin (an 3 * 8 - an 4 * 8) * 1.311e-5

/-- Mean-longitude element (elements[1]) for Oberon: series plus the secular term, from CalcGust86Elem. -/
noncomputable def oberonElem1 (t : ℝ) (an ae ai : Fin 5 → ℝ) : ℝ :=
      oberonLser an ae ai + (t * 0.46669212 - 0.9155918)

/-- Element elements[2] for Oberon, from CalcGust86Elem. -/
noncomputable def oberonElem2 (an ae ai : Fin 5 → ℝ) : ℝ :=
      Real.cos (ae 1) * (-3.5e-7)
      + Real.cos (ae 2) * 7.453e-5
      - Real.cos (ae 3) * 7.5868e-4
      + Real.cos (ae 4) * 0.00139734
      + Real.cos (an 1) * 3.9e-5
      + Real.cos (-an 1 + an 4 * 2) * 1.766e-5
      + Real.cos (an 2) * 3.242e-5
      + Real.cos (an 3) * 7.975e-5
      + Real.cos (an 4) * 7.566e-5
      + Real.cos (-an 3 + an 4 * 2) * 1.3404e-4
      - Real.cos (an 3 * (-2) + an 4 * 3) * 9.8726e-4
      - Real.cos (an 3 * (-3) + an 4 * 4) * 1.2609e-4
      - Real.cos (an 3 * (-4) + an 4 * 5) * 5.742e-5
      - Real.cos (an 3 * (-5) + an 4 * 6) * 3.241e-5
      - Real.cos (an 3 * (-6) + an 4 * 7) * 1.999e-5
      - Real.cos (an 3 * (-7) + an 4 * 8) * 1.294e-5

/-- Element elements[3] for Oberon, from CalcGust86Elem. -/
noncomputable def oberonElem3 (an ae ai : Fin 5 → ℝ) : ℝ :=
      Real.sin (ae 1) * (-3.5e-7)
      + Real.sin (ae 2) * 7.453e-5
      - Real.sin (ae 3) * 7.5868e-4
      + Real.sin (ae 4) * 0.00139734
      + Real.sin (an 1) * 3.9e-5
      + Real.sin (-an 1 + an 4 * 2) * 1.766e-5
      + Real.sin (an 2) * 3.242e-5
      + Real.sin (an 3) * 7.975e-5
      + Real.sin (an 4) * 7.566e-5
      + Real.sin (-an 3 + an 4 * 2) * 1.3404e-4
      - Real.sin (an 3 * (-2) + an 4 * 3) * 9.8726e-4
      - Real.sin (an 3 * (-3) + an 4 * 4) * 1.2609e-4
      - Real.sin (an 3 * (-4) + an 4 * 5) * 5.742e-5
      - Real.sin (an 3 * (-5) + an 4 * 6) * 3.241e-5
      - Real.sin (an 3 * (-6) + an 4 * 7) * 1.999e-5
      - Real.sin (an 3 * (-7) + an 4 * 8) * 1.294e-5

/-- Element elements[4] for Oberon, from CalcGust86Elem. -/
noncomputable def oberonElem4 (an ae ai : Fin 5 → ℝ) : ℝ :=
      Real.cos (ai 0) * (-4.4e-7)
      - Real.cos (ai 1) * 3.1e-7
      + Real.cos (ai 2) * 3.689e-5
      - Real.cos (ai 3) * 5.9633e-4
      + Real.cos (ai 4) * 4.5169e-4

/-- Element elements[5] for Oberon, from CalcGust86Elem. -/
noncomputable def oberonElem5 (an ae ai : Fin 5 → ℝ) : ℝ :=
      Real.sin (ai 0) * (-4.4e-7)
      - Real.sin (ai 1) * 3.1e-7
      + Real.sin (ai 2) * 3.689e-5
      - Real.sin (ai 3) * 5.9633e-4
      + Real.sin (ai 4) * 4.5169e-4

/-- The six orbital elements as a function of time, the three angle vectors and the satellite; transcribes the switch statement of CalcGust86Elem. -/
noncomputable def gust86ElemA (t : ℝ) (an ae ai : Fin 5 → ℝ) : Satellite → Fin 6 → ℝ
  | .Miranda => ![mirandaElem0 an ae ai, mirandaElem1 t an ae ai, mirandaElem2 an ae ai, mirandaElem3 an ae ai, mirandaElem4 an ae ai, mirandaElem5 an ae ai]
  | .Ariel => ![arielElem0 an ae ai, arielElem1 t an ae ai, arielElem2 an ae ai, arielElem3 an ae ai, arielElem4 an ae ai, arielElem5 an ae ai]
  | .Umbriel => ![umbrielElem0 an ae ai, umbrielElem1 t an ae ai, umbrielElem2 an ae ai, umbrielElem3 an ae ai, umbrielElem4 an ae ai, umbrielElem5 an ae ai]
  | .Titania => ![titaniaElem0 an ae ai, titaniaElem1 t an ae ai, titaniaElem2 an ae ai, titaniaElem3 an ae ai, titaniaElem4 an ae ai, titaniaElem5 an ae ai]
  | .Oberon => ![oberonElem0 an ae ai, oberonElem1 t an ae ai, oberonElem2 an ae ai, oberonElem3 an ae ai, oberonElem4 an ae ai, oberonElem5 an ae ai]


/-- `CalcGust86Elem` parameterized over the constant tables: compute the
three angle vectors, then the per-satellite series. -/
def calcGust86ElemT (tab : Gust86Tables) (t : ℝ) (s : Satellite) : Fin 6 → ℝ :=
  gust86ElemA t (anglesN tab t) (anglesE tab t) (anglesI tab t) s

/-- `CalcGust86Elem` with the literal tables of the source. -/
def calcGust86Elem (t : ℝ) (s : Satellite) : Fin 6 → ℝ :=
  calcGust86ElemT gust86Tables t s

/-- Numerator of the Newton correction in `EllipticToRectangular`:
`L - Le + elem[2]*sin(Le) - elem[3]*cos(Le)`. -/
def newtonNum (M h k F : ℝ) : ℝ := M - F + h * Real.sin F - k * Real.cos F

/-- Denominator of the Newton correction:
`1.0 - elem[2]*cos(Le) - elem[3]*sin(Le)`. -/
def newtonDenom (h k F : ℝ) : ℝ := 1 - h * Real.cos F - k * Real.sin F

/-- The Newton correction `dLe` of `EllipticToRectangular`. -/
def newtonDelta (M h k F : ℝ) : ℝ := newtonNum M h k F / newtonDenom h k F

/-- The Newton loop of `EllipticToRectangular`. Each step updates
`Le += dLe` and exits returning the updated `Le` as soon as
`|dLe| ≤ 1e-14`. The source loop is `for (;;)` with no iteration cap;
the fuel argument only indexes the recursion, and `none` means the loop
has not exited within that many iterations. -/
def keplerLoop (M h k : ℝ) : ℕ → ℝ → Option ℝ
  | 0, _ => none
  | fuel + 1, F =>
    if |newtonDelta M h k F| ≤ 1e-14 then some (F + newtonDelta M h k F)
    else keplerLoop M h k fuel (F + newtonDelta M h k F)

/-- Reduced mean longitude `L = fmod(elem[1] + n*dt, 2.0*M_PI)` computed
on entry to `EllipticToRectangular`. -/
def keplerM (n L dt : ℝ) : ℝ := cfmod (L + n * dt) (2 * Real.pi)

/-- Newton seed `Le = L - elem[2]*sin(L) + elem[3]*cos(L)`, applied to
the reduced longitude. -/
def keplerSeed (n L h k dt : ℝ) : ℝ :=
  keplerM n L dt - h * Real.sin (keplerM n L dt) + k * Real.cos (keplerM n L dt)

/-- The Kepler solver of `EllipticToRectangular`: reduce the longitude,
seed, then Newton-iterate. -/
def solveKepler (n L h k dt : ℝ) (fuel : ℕ) : Option ℝ :=
  keplerLoop (keplerM n L dt) h k fuel (keplerSeed n L h k dt)

/-- Seed as the specification sentence words it, for comparison with
`keplerSeed`: `F0 = L - h*sin(L) + k*cos(L)`, with no `n*dt` offset and
no reduction. -/
def specSeedKepler (L h k : ℝ) : ℝ := L - h * Real.sin L + k * Real.cos L

/-- Source local `dlf = -elem[2]*sLe + elem[3]*cLe`. -/
def keplerDlf (h k F : ℝ) : ℝ := -h * Real.sin F + k * Real.cos F

/-- Source local `phi = sqrt(1.0 - elem[2]*elem[2] - elem[3]*elem[3])`. -/
def elPhi (h k : ℝ) : ℝ := Real.sqrt (1 - h * h - k * k)

/-- Source local `psi = 1.0 / (1.0 + phi)`. -/
def elPsi (h k : ℝ) : ℝ := 1 / (1 + elPhi h k)

/-- Planar position `x1 = a * (cLe - elem[2] - psi*dlf*elem[3])`. -/
def planarX1 (a h k F : ℝ) : ℝ :=
  a * (Real.cos F - h - elPsi h k * keplerDlf h k F * k)

/-- Planar position `y1 = a * (sLe - elem[3] + psi*dlf*elem[2])`. -/
def planarY1 (a h k F : ℝ) : ℝ :=
  a * (Real.sin F - k + elPsi h k * keplerDlf h k F * h)

/-- Source local `rsam1 = -elem[2]*cLe - elem[3]*sLe`. -/
def rsam1 (h k F : ℝ) : ℝ := -h * Real.cos F - k * Real.sin F

/-- Velocity scale, source local `h = a*n / (1.0 + rsam1)`. -/
def hSpeed (a n h k F : ℝ) : ℝ := a * n / (1 + rsam1 h k F)

/-- Planar velocity `vx1 = h * (-sLe - psi*rsam1*elem[3])`. -/
def planarVx1 (a n h k F : ℝ) : ℝ :=
  hSpeed a n h k F * (-Real.sin F - elPsi h k * rsam1 h k F * k)

/-- Planar velocity `vy1 = h * (cLe + psi*rsam1*elem[2])`. -/
def planarVy1 (a n h k F : ℝ) : ℝ :=
  hSpeed a n h k F * (Real.cos F + elPsi h k * rsam1 h k F * h)

/-- `EllipticToRectangular(a, n, elem, dt, xyz)`: solve Kepler, build the
planar position and velocity, then rotate into native 3D coordinates with
the non-singular inclination parameters `(elem[4], elem[5])`. -/
def ellipticToRectangular (a n : ℝ) (elem : Fin 6 → ℝ) (dt : ℝ) (fuel : ℕ) :
    Option (Fin 6 → ℝ) :=
  match solveKepler n (elem 1) (elem 2) (elem 3) dt fuel with
  | none => none
  | some Le =>
    let x1 := planarX1 a (elem 2) (elem 3) Le
    let y1 := planarY1 a (elem 2) (elem 3) Le
    let elem4q := elem 4 * elem 4
    let elem5q := elem 5 * elem 5
    let dwho := 2 * Real.sqrt (1 - elem4q - elem5q)
    let rtp := 1 - elem5q - elem5q
    let rtq := 1 - elem4q - elem4q
    let rdg := 2 * elem 5 * elem 4
    let vx1 := planarVx1 a n (elem 2) (elem 3) Le
    let vy1 := planarVy1 a n (elem 2) (elem 3) Le
    some ![x1 * rtp + y1 * rdg,
           x1 * rdg + y1 * rtq,
           (-x1 * elem 5 + y1 * elem 4) * dwho,
           vx1 * rtp + vy1 * rdg,
           vx1 * rdg + vy1 * rtq,
           (-vx1 * elem 5 + vy1 * elem 4) * dwho]

/-- `EllipticToRectangularN`: derive the semi-major axis
`a = pow(mu/(n*n), 1./3.)` from the mean motion `n = elem[0]` and call
`EllipticToRectangular`. -/
def ellipticToRectangularN (mu : ℝ) (elem : Fin 6 → ℝ) (dt : ℝ) (fuel : ℕ) :
    Option (Fin 6 → ℝ) :=
  ellipticToRectangular ((mu / (elem 0 * elem 0)) ^ ((1 : ℝ) / 3)) (elem 0) elem dt fuel

/-- Modelled from the spec: vesta's `secondsToDays` unit conversion;
`vesta/Units.h` is not in the source tree. A day is 86400 seconds. -/
def secondsToDays (s : ℝ) : ℝ := s / 86400

/-- Modelled from the spec: vesta's `daysToSeconds` unit conversion;
`vesta/Units.h` is not in the source tree. -/
def daysToSeconds (d : ℝ) : ℝ := d * 86400

/-- Modelled from the spec: the fixed external epoch constant `J2000`
(a Julian date) from `Constants.h`, which is not in the source tree. -/
def J2000 : ℝ := 2451545.0

/-- Modelled from the spec: the astronomical-unit-to-kilometer constant
`astro::AU`; `Constants.h` is not in the source tree. -/
def astroAU : ℝ := 1.49597870691e8

/-- The orbit facade object: a satellite identity bound to a bounding
radius and an orbital period. -/
structure Gust86Orbit where
  m_satellite : Satellite
  m_boundingRadius : ℝ
  m_period : ℝ

/-- `Gust86Orbit::Create`: binds the satellite to its orbital period
`2π / fqn[satIndex]` (converted to seconds) and a literal bounding
radius; the switch covers exactly the five enumeration values and there
is no failure path. -/
def Gust86Orbit.Create (s : Satellite) : Gust86Orbit where
  m_satellite := s
  m_period := daysToSeconds (2 * Real.pi / gust86Tables.fqn (satIndex s))
  m_boundingRadius :=
    match s with
    | .Miranda => 1.4e5
    | .Ariel => 2.0e5
    | .Umbriel => 2.7e5
    | .Titania => 4.4e5
    | .Oberon => 5.9e5

/-- `Gust86Orbit::state` parameterized over the constant tables: convert
the caller time to GUST86 epoch days, evaluate the elements, reconstruct
the native state with `dt = 0`, then rotate to EMEJ2000 and convert units
(position AU→km, velocity AU/day→km/s). -/
def gust86State (tab : Gust86Tables) (tdbSec : ℝ) (s : Satellite) (fuel : ℕ) :
    Option (Fin 6 → ℝ) :=
  let t := secondsToDays tdbSec + (J2000 - 2444239.5)
  let elem := calcGust86ElemT tab t s
  match ellipticToRectangularN (tab.rmu (satIndex s)) elem 0 fuel with
  | none => none
  | some x =>
    some ![(tab.rot 0 0 * x 0 + tab.rot 0 1 * x 1 + tab.rot 0 2 * x 2) * astroAU,
           (tab.rot 1 0 * x 0 + tab.rot 1 1 * x 1 + tab.rot 1 2 * x 2) * astroAU,
           (tab.rot 2 0 * x 0 + tab.rot 2 1 * x 1 + tab.rot 2 2 * x 2) * astroAU,
           (tab.rot 0 0 * x 3 + tab.rot 0 1 * x 4 + tab.rot 0 2 * x 5) * astroAU / daysToSeconds 1,
           (tab.rot 1 0 * x 3 + tab.rot 1 1 * x 4 + tab.rot 1 2 * x 5) * astroAU / daysToSeconds 1,
           (tab.rot 2 0 * x 3 + tab.rot 2 1 * x 4 + tab.rot 2 2 * x 5) * astroAU / daysToSeconds 1]

/-- One `state(t)` query against the process memory: it reads the constant
tables and returns them unchanged, since the source writes only stack
locals. -/
def gust86StateCall (tab : Gust86Tables) (tdbSec : ℝ) (s : Satellite) (fuel : ℕ) :
    Option (Fin 6 → ℝ) × Gust86Tables :=
  (gust86State tab tdbSec s fuel, tab)

/-! Helper lemmas. -/

/-- C `fmod` is the identity on arguments already inside `[0, y)`. -/
theorem cfmod_eq_self {x y : ℝ} (hx : 0 ≤ x) (hxy : x < y) : cfmod x y = x := by
  have hy : 0 < y := lt_of_le_of_lt hx hxy
  unfold cfmod
  rw [if_pos hx]
  have h0 : ⌊x / y⌋ = 0 := by
    rw [Int.floor_eq_zero_iff, Set.mem_Ico]
    exact ⟨div_nonneg hx hy.le, (div_lt_one hy).mpr hxy⟩
  rw [h0]
  norm_num

/-- Two reals of magnitude at most 0.04 have a sum of squares below one. -/
theorem sq_add_sq_lt_one_of_small {x y : ℝ} (hx : |x| ≤ 0.04) (hy : |y| ≤ 0.04) :
    x ^ 2 + y ^ 2 < 1 := by
  rw [abs_le] at hx hy
  nlinarith [hx.1, hx.2, hy.1, hy.2]

/-- When the Newton loop returns, the returned iterate is the previous one
plus a final correction whose magnitude meets the 1e-14 stopping bound. -/
theorem keplerLoop_last_step (M h k : ℝ) :
    ∀ (fuel : ℕ) (F Fout : ℝ), keplerLoop M h k fuel F = some Fout →
      ∃ Fp : ℝ, Fout = Fp + newtonDelta M h k Fp ∧ |newtonDelta M h k Fp| ≤ 1e-14 := by
  intro fuel
  induction fuel with
  | zero => intro F Fout hF; simp [keplerLoop] at hF
  | succ fuel ih =>
    intro F Fout hF
    rw [keplerLoop] at hF
    by_cases hd : |newtonDelta M h k F| ≤ 1e-14
    · rw [if_pos hd] at hF
      exact ⟨F, (Option.some_inj.mp hF).symm, hd⟩
    · rw [if_neg hd] at hF
      exact ih _ _ hF

/-! Claim theorems. -/

/-- Claim C4: for every angle `F` and every eccentricity pair with
`h² + k² < 1`, the Newton denominator `1 - h·cos F - k·sin F` of
`EllipticToRectangular` is strictly positive, so the correction step never
divides by zero or a negative number; in particular this holds at every
iterate the solver reaches. -/
theorem newtonDenom_pos_of_ecc_lt_one (h k F : ℝ) (hecc : h ^ 2 + k ^ 2 < 1) :
    0 < newtonDenom h k F := by
  unfold newtonDenom
  have hpyth : Real.sin F ^ 2 + Real.cos F ^ 2 = 1 := Real.sin_sq_add_cos_sq F
  have hkey : (h * Real.cos F + k * Real.sin F) ^ 2 + (h * Real.sin F - k * Real.cos F) ^ 2
      = (h ^ 2 + k ^ 2) * (Real.sin F ^ 2 + Real.cos F ^ 2) := by ring
  have hsq : (h * Real.cos F + k * Real.sin F) ^ 2 ≤ h ^ 2 + k ^ 2 := by
    nlinarith [sq_nonneg (h * Real.sin F - k * Real.cos F)]
  nlinarith [hsq, hecc]

/-- Witness for C4 at the concrete input `h = k = 0`, `F = 0`. -/
theorem newtonDenom_pos_witness :
    ((0 : ℝ) ^ 2 + 0 ^ 2 < 1) ∧ 0 < newtonDenom 0 0 0 :=
  ⟨by norm_num, newtonDenom_pos_of_ecc_lt_one 0 0 0 (by norm_num)⟩

/-- Claim C8: the fixed frame-rotation constant table `GUST86toJ2000` is
orthonormal: every entry of `Rᵀ·R` agrees with the identity matrix within
`1e-15`, a static invariant of the literal constants. -/
theorem gust86toJ2000_orthonormal :
    ∀ i j : Fin 3,
      |(Matrix.transpose GUST86toJ2000 * GUST86toJ2000) i j
        - (1 : Matrix (Fin 3) (Fin 3) ℝ) i j| ≤ 1e-15 := by
  intro i j
  fin_cases i <;> fin_cases j <;>
    · rw [abs_le]
      constructor <;>
        · simp only [GUST86toJ2000, Matrix.mul_apply, Matrix.transpose_apply,
            Fin.sum_univ_three, Matrix.one_apply, Matrix.cons_val_zero, Matrix.cons_val_one,
            Matrix.head_cons, Matrix.head_fin_const, Matrix.cons_val_two, Matrix.tail_cons,
            Matrix.of_apply, Matrix.cons_val_fin_one, Fin.ext_iff]
          norm_num

/-- Claim C9: for Miranda (satellite index 0) at `t = 0`, the mean-longitude
element `elements[1]` equals the trigonometric series contribution plus the
literal secular bias `-0.23805158`. -/
theorem mirandaMeanLongitude_bias_at_zero :
    calcGust86Elem 0 Satellite.Miranda 1 =
      mirandaLser (anglesN gust86Tables 0) (anglesE gust86Tables 0) (anglesI gust86Tables 0)
        + (-0.23805158) := by
  show mirandaElem1 0 (anglesN gust86Tables 0) (anglesE gust86Tables 0) (anglesI gust86Tables 0) = _
  unfold mirandaElem1
  norm_num

/-- Claim C2: the satellite identity type is the closed five-value
enumeration, and `Gust86Orbit::Create` succeeds on every one of its values,
producing the orbit for that same identity with a positive literal bounding
radius and the positive period `2π / fqn[satIndex]` converted to seconds;
since every representable identity is one of the five, no invalid-identity
failure exists after construction. -/
theorem create_total_on_closed_enum :
    ∀ s : Satellite,
      (s = Satellite.Miranda ∨ s = Satellite.Ariel ∨ s = Satellite.Umbriel ∨
        s = Satellite.Titania ∨ s = Satellite.Oberon) ∧
      (Gust86Orbit.Create s).m_satellite = s ∧
      0 < (Gust86Orbit.Create s).m_boundingRadius ∧
      (Gust86Orbit.Create s).m_period
        = daysToSeconds (2 * Real.pi / gust86Tables.fqn (satIndex s)) ∧
      0 < (Gust86Orbit.Create s).m_period := by
  intro s
  cases s <;>
    refine ⟨by tauto, rfl, by norm_num [Gust86Orbit.Create], rfl, ?_⟩ <;>
    · simp only [Gust86Orbit.Create, daysToSeconds, satIndex, gust86Tables,
        Matrix.cons_val_zero, Matrix.cons_val_one, Matrix.head_cons, Matrix.cons_val_two,
        Matrix.tail_cons, Matrix.cons_val_three, Matrix.cons_val_four, Matrix.head_fin_const]
      positivity

/-- Claim C10: `state(t)` is deterministic and side-effect-free: a query
returns the constant tables unchanged, and an immediately repeated query
with identical inputs against the resulting process state returns an
identical output state vector. -/
theorem state_deterministic_and_pure :
    ∀ (tab : Gust86Tables) (tdbSec : ℝ) (s : Satellite) (fuel : ℕ),
      (gust86StateCall tab tdbSec s fuel).2 = tab ∧
      (gust86StateCall ((gust86StateCall tab tdbSec s fuel).2) tdbSec s fuel).1 =
        (gust86StateCall tab tdbSec s fuel).1 := by
  intro tab tdbSec s fuel
  exact ⟨rfl, rfl⟩

/-- Claim C6: the angle propagator computes, for every time and each of the
five perturbing-frequency indices, the three phase angles as linear
propagations `freq·t + phase` reduced modulo `2π`, using exactly the
five-entry literal frequency and phase tables of the source; it is a total
function of `t`. -/
theorem anglePropagator_linear_mod_2pi :
    ∀ (t : ℝ) (i : Fin 5),
      anglesN gust86Tables t i =
        cfmod (![4.44519055, 2.492952519, 1.516148111, 0.721718509, 0.46669212] i * t +
          ![-0.238051, 3.098046, 2.285402, 0.856359, -0.915592] i) (2 * Real.pi) ∧
      anglesE gust86Tables t i =
        cfmod (![20.082 * Real.pi / (180 * 365.25), 6.217 * Real.pi / (180 * 365.25),
          2.865 * Real.pi / (180 * 365.25), 2.078 * Real.pi / (180 * 365.25),
          0.386 * Real.pi / (180 * 365.25)] i * t +
          ![0.611392, 2.408974, 2.067774, 0.735131, 0.426767] i) (2 * Real.pi) ∧
      anglesI gust86Tables t i =
        cfmod (![-20.309 * Real.pi / (180 * 365.25), -6.288 * Real.pi / (180 * 365.25),
          -2.836 * Real.pi / (180 * 365.25), -1.843 * Real.pi / (180 * 365.25),
          -0.259 * Real.pi / (180 * 365.25)] i * t +
          ![5.702313, 0.395757, 0.589326, 1.746237, 4.206896] i) (2 * Real.pi) := by
  intro t i
  exact ⟨rfl, rfl, rfl⟩

/-- Claim C5: the rectangular state converter derives the semi-major axis
as `a = (μ/n²)^(1/3)` and computes the planar position and velocity-scale
intermediates by the formulas `x1 = a·(cosF − h − ψ·k·(−h·sinF + k·cosF))`,
`y1 = a·(sinF − k + ψ·h·(−h·sinF + k·cosF))`, `φ = sqrt(1 − h² − k²)`,
`ψ = 1/(1+φ)` and `h_speed = a·n/(1+ρ)` with `ρ = −h·cosF − k·sinF`, for
every element vector with `h² + k² < 1`. -/
theorem rectangular_converter_formulas (mu a n h k F : ℝ) (hecc : h ^ 2 + k ^ 2 < 1) :
    (∀ (elem : Fin 6 → ℝ) (dt : ℝ) (fuel : ℕ),
        ellipticToRectangularN mu elem dt fuel
          = ellipticToRectangular ((mu / (elem 0) ^ 2) ^ ((1 : ℝ) / 3)) (elem 0) elem dt fuel) ∧
    planarX1 a h k F
      = a * (Real.cos F - h - elPsi h k * k * (-h * Real.sin F + k * Real.cos F)) ∧
    planarY1 a h k F
      = a * (Real.sin F - k + elPsi h k * h * (-h * Real.sin F + k * Real.cos F)) ∧
    elPhi h k = Real.sqrt (1 - h ^ 2 - k ^ 2) ∧
    elPsi h k = 1 / (1 + elPhi h k) ∧
    hSpeed a n h k F = a * n / (1 + (-h * Real.cos F - k * Real.sin F)) := by
  refine ⟨fun elem dt fuel => ?_, ?_, ?_, ?_, rfl, rfl⟩
  · unfold ellipticToRectangularN
    rw [pow_two]
  · unfold planarX1 keplerDlf
    ring
  · unfold planarY1 keplerDlf
    ring
  · unfold elPhi
    rw [pow_two, pow_two]

/-- Witness for C5 at `μ = a = n = 1`, `h = k = 0`, `F = 0`. -/
theorem rectangular_converter_formulas_witness :
    ((0 : ℝ) ^ 2 + 0 ^ 2 < 1) ∧
    ((∀ (elem : Fin 6 → ℝ) (dt : ℝ) (fuel : ℕ),
        ellipticToRectangularN 1 elem dt fuel
          = ellipticToRectangular ((1 / (elem 0) ^ 2) ^ ((1 : ℝ) / 3)) (elem 0) elem dt fuel) ∧
      planarX1 1 0 0 0
        = 1 * (Real.cos 0 - 0 - elPsi 0 0 * 0 * (-0 * Real.sin 0 + 0 * Real.cos 0)) ∧
      planarY1 1 0 0 0
        = 1 * (Real.sin 0 - 0 + elPsi 0 0 * 0 * (-0 * Real.sin 0 + 0 * Real.cos 0)) ∧
      elPhi 0 0 = Real.sqrt (1 - 0 ^ 2 - 0 ^ 2) ∧
      elPsi 0 0 = 1 / (1 + elPhi 0 0) ∧
      hSpeed 1 1 0 0 0 = 1 * 1 / (1 + (-0 * Real.cos 0 - 0 * Real.sin 0))) :=
  ⟨by norm_num, rectangular_converter_formulas 1 1 1 0 0 0 (by norm_num)⟩

/-- Claim C3 counterexample: the claimed seed formula
`F0 = L − h·sin(L) + k·cos(L)` disagrees with the code at
`n = 1, L = 0, h = k = 0, dt = 1`: the code seeds from the reduced
longitude `fmod(L + n·dt, 2π) = 1`, giving seed `1`, while the claimed
formula gives `0`. -/
theorem kepler_seed_counterexample : keplerSeed 1 0 0 0 1 ≠ specSeedKepler 0 0 0 := by
  have hm : keplerM 1 0 1 = 1 := by
    unfold keplerM
    have h1 : (0 : ℝ) + 1 * 1 = 1 := by norm_num
    rw [h1]
    exact cfmod_eq_self (by norm_num) (by nlinarith [Real.pi_gt_three])
  unfold keplerSeed specSeedKepler
  rw [hm]
  simp [Real.sin_zero, Real.cos_zero]

/-- Claim C3 as amended: the Kepler solver reduces
`M = fmod(L + n·dt, 2π)`, seeds `F0 = M − h·sin M + k·cos M`, iterates the
Newton correction `ΔF = (M − F + h·sinF − k·cosF)/(1 − h·cosF − k·sinF)`
with `F += ΔF`, and exits as soon as `|ΔF| ≤ 1e-14`; whenever it returns,
the returned iterate is the previous one plus a final correction whose
magnitude satisfies that bound. -/
theorem kepler_newton_procedure (n L h k dt : ℝ) (fuel : ℕ) (Fout : ℝ)
    (hret : solveKepler n L h k dt fuel = some Fout) :
    solveKepler n L h k dt fuel
      = keplerLoop (keplerM n L dt) h k fuel (keplerSeed n L h k dt) ∧
    keplerSeed n L h k dt
      = keplerM n L dt - h * Real.sin (keplerM n L dt) + k * Real.cos (keplerM n L dt) ∧
    ∃ Fp : ℝ,
      Fout = Fp + newtonDelta (keplerM n L dt) h k Fp ∧
      |newtonDelta (keplerM n L dt) h k Fp| ≤ 1e-14 :=
  ⟨rfl, rfl, keplerLoop_last_step (keplerM n L dt) h k fuel (keplerSeed n L h k dt) Fout hret⟩

/-- The solver converges in one step on the trivial input `n = L = h = k =
dt = 0`, returning `F = 0`. -/
theorem solveKepler_trivial : solveKepler 0 0 0 0 0 1 = some 0 := by
  have hm : keplerM 0 0 0 = 0 := by
    unfold keplerM
    have h1 : (0 : ℝ) + 0 * 0 = 0 := by norm_num
    rw [h1]
    exact cfmod_eq_self le_rfl (by positivity)
  have hs : keplerSeed 0 0 0 0 0 = 0 := by
    unfold keplerSeed
    rw [hm]
    simp
  have hd : newtonDelta 0 0 0 0 = 0 := by
    unfold newtonDelta newtonNum newtonDenom
    norm_num
  unfold solveKepler
  rw [hm, hs, keplerLoop]
  rw [hd]
  norm_num

/-- Witness for C3 at the trivial input, where the solver returns `F = 0`
after a single Newton step. -/
theorem kepler_newton_procedure_witness :
    solveKepler 0 0 0 0 0 1 = some 0 ∧
    (solveKepler 0 0 0 0 0 1
        = keplerLoop (keplerM 0 0 0) 0 0 1 (keplerSeed 0 0 0 0 0) ∧
      keplerSeed 0 0 0 0 0
        = keplerM 0 0 0 - 0 * Real.sin (keplerM 0 0 0) + 0 * Real.cos (keplerM 0 0 0) ∧
      ∃ Fp : ℝ,
        (0 : ℝ) = Fp + newtonDelta (keplerM 0 0 0) 0 0 Fp ∧
        |newtonDelta (keplerM 0 0 0) 0 0 Fp| ≤ 1e-14) :=
  ⟨solveKepler_trivial, kepler_newton_procedure 0 0 0 0 0 1 0 solveKepler_trivial⟩

/-! The pathological Kepler input. On the out-of-contract input
`M = π/2`, `h = 2π`, `k = 1/2`, the Newton iteration cycles between the
two iterates `π/2 − 2π` and `π/2 + 6π` with corrections of magnitude
`8π`, so the stopping criterion is never met and the unbounded source
loop never exits. -/

/-- Sine at the first cycle point. -/
theorem sin_cycle_lo : Real.sin (Real.pi / 2 - 2 * Real.pi) = 1 := by
  rw [Real.sin_sub, Real.sin_pi_div_two, Real.cos_pi_div_two, Real.sin_two_pi, Real.cos_two_pi]
  ring

/-- Cosine at the first cycle point. -/
theorem cos_cycle_lo : Real.cos (Real.pi / 2 - 2 * Real.pi) = 0 := by
  rw [Real.cos_sub, Real.sin_pi_div_two, Real.cos_pi_div_two, Real.sin_two_pi, Real.cos_two_pi]
  ring

/-- Cosine of three full turns. -/
theorem cos_six_pi : Real.cos (6 * Real.pi) = 1 := by
  have h := Real.cos_nat_mul_two_pi 3
  have e : ((3 : ℕ) : ℝ) * (2 * Real.pi) = 6 * Real.pi := by push_cast; ring
  rw [e] at h
  exact h

/-- Sine of three full turns. -/
theorem sin_six_pi : Real.sin (6 * Real.pi) = 0 := by
  have h := Real.sin_nat_mul_pi 6
  have e : ((6 : ℕ) : ℝ) * Real.pi = 6 * Real.pi := by push_cast; ring
  rw [e] at h
  exact h

/-- Sine at the second cycle point. -/
theorem sin_cycle_hi : Real.sin (Real.pi / 2 + 6 * Real.pi) = 1 := by
  rw [Real.sin_add, Real.sin_pi_div_two, Real.cos_pi_div_two, sin_six_pi, cos_six_pi]
  ring

/-- Cosine at the second cycle point. -/
theorem cos_cycle_hi : Real.cos (Real.pi / 2 + 6 * Real.pi) = 0 := by
  rw [Real.cos_add, Real.sin_pi_div_two, Real.cos_pi_div_two, sin_six_pi, cos_six_pi]
  ring

/-- The Newton correction at the first cycle point is `8π`. -/
theorem newtonDelta_cycle_lo :
    newtonDelta (Real.pi / 2) (2 * Real.pi) (1 / 2) (Real.pi / 2 - 2 * Real.pi)
      = 8 * Real.pi := by
  unfold newtonDelta newtonNum newtonDenom
  rw [sin_cycle_lo, cos_cycle_lo]
  rw [div_eq_iff (by norm_num : (1 : ℝ) - 2 * Real.pi * 0 - 1 / 2 * 1 ≠ 0)]
  ring

/-- The Newton correction at the second cycle point is `−8π`. -/
theorem newtonDelta_cycle_hi :
    newtonDelta (Real.pi / 2) (2 * Real.pi) (1 / 2) (Real.pi / 2 + 6 * Real.pi)
      = -(8 * Real.pi) := by
  unfold newtonDelta newtonNum newtonDenom
  rw [sin_cycle_hi, cos_cycle_hi]
  rw [div_eq_iff (by norm_num : (1 : ℝ) - 2 * Real.pi * 0 - 1 / 2 * 1 ≠ 0)]
  ring

/-- A correction of magnitude `8π` never meets the `1e-14` stopping bound. -/
theorem abs_eight_pi_large : ¬ |8 * Real.pi| ≤ 1e-14 := by
  rw [abs_of_nonneg (by positivity)]
  nlinarith [Real.pi_gt_three]

/-- On the pathological input the Newton loop cycles between the two
iterates and never exits, whatever the number of iterations. -/
theorem keplerLoop_cycle (fuel : ℕ) :
    keplerLoop (Real.pi / 2) (2 * Real.pi) (1 / 2) fuel (Real.pi / 2 - 2 * Real.pi) = none ∧
    keplerLoop (Real.pi / 2) (2 * Real.pi) (1 / 2) fuel (Real.pi / 2 + 6 * Real.pi) = none := by
  induction fuel with
  | zero => exact ⟨rfl, rfl⟩
  | succ fuel ih =>
    constructor
    · rw [keplerLoop]
      simp only [newtonDelta_cycle_lo]
      rw [if_neg abs_eight_pi_large]
      have e : Real.pi / 2 - 2 * Real.pi + 8 * Real.pi = Real.pi / 2 + 6 * Real.pi := by ring
      rw [e]
      exact ih.2
    · rw [keplerLoop]
      simp only [newtonDelta_cycle_hi]
      rw [if_neg (by rw [abs_neg]; exact abs_eight_pi_large)]
      have e : Real.pi / 2 + 6 * Real.pi + -(8 * Real.pi) = Real.pi / 2 - 2 * Real.pi := by ring
      rw [e]
      exact ih.1

/-- The Kepler solver never returns on the pathological façade-level input
`n = 0`, `L = π/2`, `h = 2π`, `k = 1/2`, `dt = 0`. -/
theorem solveKepler_pathological (fuel : ℕ) :
    solveKepler 0 (Real.pi / 2) (2 * Real.pi) (1 / 2) 0 fuel = none := by
  have hm : keplerM 0 (Real.pi / 2) 0 = Real.pi / 2 := by
    unfold keplerM
    have h1 : Real.pi / 2 + 0 * 0 = Real.pi / 2 := by ring
    rw [h1]
    exact cfmod_eq_self (by positivity) (by nlinarith [Real.pi_pos])
  have hs : keplerSeed 0 (Real.pi / 2) (2 * Real.pi) (1 / 2) 0 = Real.pi / 2 - 2 * Real.pi := by
    unfold keplerSeed
    rw [hm, Real.sin_pi_div_two, Real.cos_pi_div_two]
    ring
  unfold solveKepler
  rw [hm, hs]
  exact (keplerLoop_cycle fuel).1

/-- Claim C1 counterexample: on the input `L = π/2, h = 2π, k = 1/2,
dt = 0` the solver has still not returned after 1000 iterations, so it
neither stops at a 50-iteration cap nor returns a NumericalNonConvergence
error result to the caller. -/
theorem kepler_no_cap_counterexample :
    solveKepler 0 (Real.pi / 2) (2 * Real.pi) (1 / 2) 0 1000 = none :=
  solveKepler_pathological 1000

/-- Claim C1 as amended: the source Newton loop is unbounded (`for (;;)`)
with no iteration cap and no error result; there are inputs, such as
`L = π/2, h = 2π, k = 1/2, dt = 0`, on which the stopping criterion is
never met and the loop runs forever: no iteration count makes it exit. -/
theorem kepler_loop_unbounded :
    ∀ fuel : ℕ, solveKepler 0 (Real.pi / 2) (2 * Real.pi) (1 / 2) 0 fuel = none :=
  solveKepler_pathological



/-- Series bound: |mirandaElem2| is at most 0.04 for any angle vectors. -/
theorem mirandaElem2_bound (an ae ai : Fin 5 → ℝ) : |mirandaElem2 an ae ai| ≤ 0.04 := by
  unfold mirandaElem2
  rw [abs_le]
  have hc0a := Real.neg_one_le_cos (ae 0)
  have hc0b := Real.cos_le_one (ae 0)
  have hc1a := Real.neg_one_le_cos (ae 1)
  have hc1b := Real.cos_le_one (ae 1)
  have hc2a := Real.neg_one_le_cos (ae 2)
  have hc2b := Real.cos_le_one (ae 2)
  have hc3a := Real.neg_one_le_cos (ae 3)
  have hc3b := Real.cos_le_one (ae 3)
  have hc4a := Real.neg_one_le_cos (ae 4)
  have hc4b := Real.cos_le_one (ae 4)
  have hc5a := Real.neg_one_le_cos (an 0)
  have hc5b := Real.cos_le_one (an 0)
  have hc6a := Real.neg_one_le_cos (-an 0 + an 1 * 2)
  have hc6b := Real.cos_le_one (-an 0 + an 1 * 2)
  have hc7a := Real.neg_one_le_cos (an 0 * (-2) + an 1 * 3)
  have hc7b := Real.cos_le_one (an 0 * (-2) + an 1 * 3)
  constructor <;> linarith

/-- Series bound: |mirandaElem3| is at most 0.04 for any angle vectors. -/
theorem mirandaElem3_bound (an ae ai : Fin 5 → ℝ) : |mirandaElem3 an ae ai| ≤ 0.04 := by
  unfold mirandaElem3
  rw [abs_le]
  have hs0a := Real.neg_one_le_sin (ae 0)
  have hs0b := Real.sin_le_one (ae 0)
  have hs1a := Real.neg_one_le_sin (ae 1)
  have hs1b := Real.sin_le_one (ae 1)
  have hs2a := Real.neg_one_le_sin (ae 2)
  have hs2b := Real.sin_le_one (ae 2)
  have hs3a := Real.neg_one_le_sin (ae 3)
  have hs3b := Real.sin_le_one (ae 3)
  have hs4a := Real.neg_one_le_sin (ae 4)
  have hs4b := Real.sin_le_one (ae 4)
  have hs5a := Real.neg_one_le_sin (an 0)
  have hs5b := Real.sin_le_one (an 0)
  have hs6a := Real.neg_one_le_sin (-an 0 + an 1 * 2)
  have hs6b := Real.sin_le_one (-an 0 + an 1 * 2)
  have hs7a := Real.neg_one_le_sin (an 0 * (-2) + an 1 * 3)
  have hs7b := Real.sin_le_one (an 0 * (-2) + an 1 * 3)
  constructor <;> linarith

/-- Series bound: |mirandaElem4| is at most 0.04 for any angle vectors. -/
theorem mirandaElem4_bound (an ae ai : Fin 5 → ℝ) : |mirandaElem4 an ae ai| ≤ 0.04 := by
  unfold mirandaElem4
  rw [abs_le]
  have hc0a := Real.neg_one_le_cos (ai 0)
  have hc0b := Real.cos_le_one (ai 0)
  have hc1a := Real.neg_one_le_cos (ai 1)
  have hc1b := Real.cos_le_one (ai 1)
  have hc2a := Real.neg_one_le_cos (ai 2)
  have hc2b := Real.cos_le_one (ai 2)
  have hc3a := Real.neg_one_le_cos (ai 3)
  have hc3b := Real.cos_le_one (ai 3)
  have hc4a := Real.neg_one_le_cos (ai 4)
  have hc4b := Real.cos_le_one (ai 4)
  constructor <;> linarith

/-- Series bound: |mirandaElem5| is at most 0.04 for any angle vectors. -/
theorem mirandaElem5_bound (an ae ai : Fin 5 → ℝ) : |mirandaElem5 an ae ai| ≤ 0.04 := by
  unfold mirandaElem5
  rw [abs_le]
  have hs0a := Real.neg_one_le_sin (ai 0)
  have hs0b := Real.sin_le_one (ai 0)
  have hs1a := Real.neg_one_le_sin (ai 1)
  have hs1b := Real.sin_le_one (ai 1)
  have hs2a := Real.neg_one_le_sin (ai 2)
  have hs2b := Real.sin_le_one (ai 2)
  have hs3a := Real.neg_one_le_sin (ai 3)
  have hs3b := Real.sin_le_one (ai 3)
  have hs4a := Real.neg_one_le_sin (ai 4)
  have hs4b := Real.sin_le_one (ai 4)
  constructor <;> linarith

/-- Series bound: |arielElem2| is at most 0.04 for any angle vectors. -/
theorem arielElem2_bound (an ae ai : Fin 5 → ℝ) : |arielElem2 an ae ai| ≤ 0.04 := by
  unfold arielElem2
  rw [abs_le]
  have hc0a := Real.neg_one_le_cos (ae 0)
  have hc0b := Real.cos_le_one (ae 0)
  have hc1a := Real.neg_one_le_cos (ae 1)
  have hc1b := Real.cos_le_one (ae 1)
  have hc2a := Real.neg_one_le_cos (ae 2)
  have hc2b := Real.cos_le_one (ae 2)
  have hc3a := Real.neg_one_le_cos (ae 3)
  have hc3b := Real.cos_le_one (ae 3)
  have hc4a := Real.neg_one_le_cos (ae 4)
  have hc4b := Real.cos_le_one (ae 4)
  have hc5a := Real.neg_one_le_cos (-an 1 + an 2 * 2)
  have hc5b := Real.cos_le_one (-an 1 + an 2 * 2)
  have hc6a := Real.neg_one_le_cos (an 1 * (-2) + an 2 * 3)
  have hc6b := Real.cos_le_one (an 1 * (-2) + an 2 * 3)
  have hc7a := Real.neg_one_le_cos (-an 1 + an 3 * 2)
  have hc7b := Real.cos_le_one (-an 1 + an 3 * 2)
  have hc8a := Real.neg_one_le_cos (an 1)
  have hc8b := Real.cos_le_one (an 1)
  constructor <;> linarith

/-- Series bound: |arielElem3| is at most 0.04 for any angle vectors. -/
theorem arielElem3_bound (an ae ai : Fin 5 → ℝ) : |arielElem3 an ae ai| ≤ 0.04 := by
  unfold arielElem3
  rw [abs_le]
  have hs0a := Real.neg_one_le_sin (ae 0)
  have hs0b := Real.sin_le_one (ae 0)
  have hs1a := Real.neg_one_le_sin (ae 1)
  have hs1b := Real.sin_le_one (ae 1)
  have hs2a := Real.neg_one_le_sin (ae 2)
  have hs2b := Real.sin_le_one (ae 2)
  have hs3a := Real.neg_one_le_sin (ae 3)
  have hs3b := Real.sin_le_one (ae 3)
  have hs4a := Real.neg_one_le_sin (ae 4)
  have hs4b := Real.sin_le_one (ae 4)
  have hs5a := Real.neg_one_le_sin (-an 1 + an 2 * 2)
  have hs5b := Real.sin_le_one (-an 1 + an 2 * 2)
  have hs6a := Real.neg_one_le_sin (an 1 * (-2) + an 2 * 3)
  have hs6b := Real.sin_le_one (an 1 * (-2) + an 2 * 3)
  have hs7a := Real.neg_one_le_sin (-an 1 + an 3 * 2)
  have hs7b := Real.sin_le_one (-an 1 + an 3 * 2)
  have hs8a := Real.neg_one_le_sin (an 1)
  have hs8b := Real.sin_le_one (an 1)
  constructor <;> linarith

/-- Series bound: |arielElem4| is at most 0.04 for any angle vectors. -/
theorem arielElem4_bound (an ae ai : Fin 5 → ℝ) : |arielElem4 an ae ai| ≤ 0.04 := by
  unfold arielElem4
  rw [abs_le]
  have hc0a := Real.neg_one_le_cos (ai 0)
  have hc0b := Real.cos_le_one (ai 0)
  have hc1a := Real.neg_one_le_cos (ai 1)
  have hc1b := Real.cos_le_one (ai 1)
  have hc2a := Real.neg_one_le_cos (ai 2)
  have hc2b := Real.cos_le_one (ai 2)
  have hc3a := Real.neg_one_le_cos (ai 3)
  have hc3b := Real.cos_le_one (ai 3)
  have hc4a := Real.neg_one_le_cos (ai 4)
  have hc4b := Real.cos_le_one (ai 4)
  constructor <;> linarith

/-- Series bound: |arielElem5| is at most 0.04 for any angle vectors. -/
theorem arielElem5_bound (an ae ai : Fin 5 → ℝ) : |arielElem5 an ae ai| ≤ 0.04 := by
  unfold arielElem5
  rw [abs_le]
  have hs0a := Real.neg_one_le_sin (ai 0)
  have hs0b := Real.sin_le_one (ai 0)
  have hs1a := Real.neg_one_le_sin (ai 1)
  have hs1b := Real.sin_le_one (ai 1)
  have hs2a := Real.neg_one_le_sin (ai 2)
  have hs2b := Real.sin_le_one (ai 2)
  have hs3a := Real.neg_one_le_sin (ai 3)
  have hs3b := Real.sin_le_one (ai 3)
  have hs4a := Real.neg_one_le_sin (ai 4)
  have hs4b := Real.sin_le_one (ai 4)
  constructor <;> linarith

/-- Series bound: |umbrielElem2| is at most 0.04 for any angle vectors. -/
theorem umbrielElem2_bound (an ae ai : Fin 5 → ℝ) : |umbrielElem2 an ae ai| ≤ 0.04 := by
  unfold umbrielElem2
  rw [abs_le]
  have hc0a := Real.neg_one_le_cos (ae 0)
  have hc0b := Real.cos_le_one (ae 0)
  have hc1a := Real.neg_one_le_cos (ae 1)
  have hc1b := Real.cos_le_one (ae 1)
  have hc2a := Real.neg_one_le_cos (ae 2)
  have hc2b := Real.cos_le_one (ae 2)
  have hc3a := Real.neg_one_le_cos (ae 3)
  have hc3b := Real.cos_le_one (ae 3)
  have hc4a := Real.neg_one_le_cos (ae 4)
  have hc4b := Real.cos_le_one (ae 4)
  have hc5a := Real.neg_one_le_cos (an 1)
  have hc5b := Real.cos_le_one (an 1)
  have hc6a := Real.neg_one_le_cos (an 2)
  have hc6b := Real.cos_le_one (an 2)
  have hc7a := Real.neg_one_le_cos (-an 1 + an 2 * 2)
  have hc7b := Real.cos_le_one (-an 1 + an 2 * 2)
  have hc8a := Real.neg_one_le_cos (an 1 * (-2) + an 2 * 3)
  have hc8b := Real.cos_le_one (an 1 * (-2) + an 2 * 3)
  have hc9a := Real.neg_one_le_cos (an 1 * (-3) + an 2 * 4)
  have hc9b := Real.cos_le_one (an 1 * (-3) + an 2 * 4)
  have hc10a := Real.neg_one_le_cos (an 3)
  have hc10b := Real.cos_le_one (an 3)
  have hc11a := Real.neg_one_le_cos (-an 2 + an 3 * 2)
  have hc11b := Real.cos_le_one (-an 2 + an 3 * 2)
  have hc12a := Real.neg_one_le_cos (an 2 * (-2) + an 3 * 3)
  have hc12b := Real.cos_le_one (an 2 * (-2) + an 3 * 3)
  have hc13a := Real.neg_one_le_cos (an 2 * (-3) + an 3 * 4)
  have hc13b := Real.cos_le_one (an 2 * (-3) + an 3 * 4)
  have hc14a := Real.neg_one_le_cos (-an 2 + an 4 * 2)
  have hc14b := Real.cos_le_one (-an 2 + an 4 * 2)
  have hc15a := Real.neg_one_le_cos (an 2)
  have hc15b := Real.cos_le_one (an 2)
  constructor <;> linarith

/-- Series bound: |umbrielElem3| is at most 0.04 for any angle vectors. -/
theorem umbrielElem3_bound (an ae ai : Fin 5 → ℝ) : |umbrielElem3 an ae ai| ≤ 0.04 := by
  unfold umbrielElem3
  rw [abs_le]
  have hs0a := Real.neg_one_le_sin (ae 0)
  have hs0b := Real.sin_le_one (ae 0)
  have hs1a := Real.neg_one_le_sin (ae 1)
  have hs1b := Real.sin_le_one (ae 1)
  have hs2a := Real.neg_one_le_sin (ae 2)
  have hs2b := Real.sin_le_one (ae 2)
  have hs3a := Real.neg_one_le_sin (ae 3)
  have hs3b := Real.sin_le_one (ae 3)
  have hs4a := Real.neg_one_le_sin (ae 4)
  have hs4b := Real.sin_le_one (ae 4)
  have hs5a := Real.neg_one_le_sin (an 1)
  have hs5b := Real.sin_le_one (an 1)
  have hs6a := Real.neg_one_le_sin (an 2)
  have hs6b := Real.sin_le_one (an 2)
  have hs7a := Real.neg_one_le_sin (-an 1 + an 2 * 2)
  have hs7b := Real.sin_le_one (-an 1 + an 2 * 2)
  have hs8a := Real.neg_one_le_sin (an 1 * (-2) + an 2 * 3)
  have hs8b := Real.sin_le_one (an 1 * (-2) + an 2 * 3)
  have hs9a := Real.neg_one_le_sin (an 1 * (-3) + an 2 * 4)
  have hs9b := Real.sin_le_one (an 1 * (-3) + an 2 * 4)
  have hs10a := Real.neg_one_le_sin (an 3)
  have hs10b := Real.sin_le_one (an 3)
  have hs11a := Real.neg_one_le_sin (-an 2 + an 3 * 2)
  have hs11b := Real.sin_le_one (-an 2 + an 3 * 2)
  have hs12a := Real.neg_one_le_sin (an 2 * (-2) + an 3 * 3)
  have hs12b := Real.sin_le_one (an 2 * (-2) + an 3 * 3)
  have hs13a := Real.neg_one_le_sin (an 2 * (-3) + an 3 * 4)
  have hs13b := Real.sin_le_one (an 2 * (-3) + an 3 * 4)
  have hs14a := Real.neg_one_le_sin (-an 2 + an 4 * 2)
  have hs14b := Real.sin_le_one (-an 2 + an 4 * 2)
  have hs15a := Real.neg_one_le_sin (an 2)
  have hs15b := Real.sin_le_one (an 2)
  constructor <;> linarith

/-- Series bound: |umbrielElem4| is at most 0.04 for any angle vectors. -/
theorem umbrielElem4_bound (an ae ai : Fin 5 → ℝ) : |umbrielElem4 an ae ai| ≤ 0.04 := by
  unfold umbrielElem4
  rw [abs_le]
  have hc0a := Real.neg_one_le_cos (ai 0)
  have hc0b := Real.cos_le_one (ai 0)
  have hc1a := Real.neg_one_le_cos (ai 1)
  have hc1b := Real.cos_le_one (ai 1)
  have hc2a := Real.neg_one_le_cos (ai 2)
  have hc2b := Real.cos_le_one (ai 2)
  have hc3a := Real.neg_one_le_cos (ai 3)
  have hc3b := Real.cos_le_one (ai 3)
  have hc4a := Real.neg_one_le_cos (ai 4)
  have hc4b := Real.cos_le_one (ai 4)
  constructor <;> linarith

/-- Series bound: |umbrielElem5| is at most 0.04 for any angle vectors. -/
theorem umbrielElem5_bound (an ae ai : Fin 5 → ℝ) : |umbrielElem5 an ae ai| ≤ 0.04 := by
  unfold umbrielElem5
  rw [abs_le]
  have hs0a := Real.neg_one_le_sin (ai 0)
  have hs0b := Real.sin_le_one (ai 0)
  have hs1a := Real.neg_one_le_sin (ai 1)
  have hs1b := Real.sin_le_one (ai 1)
  have hs2a := Real.neg_one_le_sin (ai 2)
  have hs2b := Real.sin_le_one (ai 2)
  have hs3a := Real.neg_one_le_sin (ai 3)
  have hs3b := Real.sin_le_one (ai 3)
  have hs4a := Real.neg_one_le_sin (ai 4)
  have hs4b := Real.sin_le_one (ai 4)
  constructor <;> linarith

/-- Series bound: |titaniaElem2| is at most 0.04 for any angle vectors. -/
theorem titaniaElem2_bound (an ae ai : Fin 5 → ℝ) : |titaniaElem2 an ae ai| ≤ 0.04 := by
  unfold titaniaElem2
  rw [abs_le]
  have hc0a := Real.neg_one_le_cos (ae 0)
  have hc0b := Real.cos_le_one (ae 0)
  have hc1a := Real.neg_one_le_cos (ae 1)
  have hc1b := Real.cos_le_one (ae 1)
  have hc2a := Real.neg_one_le_cos (ae 2)
  have hc2b := Real.cos_le_one (ae 2)
  have hc3a := Real.neg_one_le_cos (ae 3)
  have hc3b := Real.cos_le_one (ae 3)
  have hc4a := Real.neg_one_le_cos (ae 4)
  have hc4b := Real.cos_le_one (ae 4)
  have hc5a := Real.neg_one_le_cos (an 1)
  have hc5b := Real.cos_le_one (an 1)
  have hc6a := Real.neg_one_le_cos (an 3)
  have hc6b := Real.cos_le_one (an 3)
  have hc7a := Real.neg_one_le_cos (-an 1 + an 3 * 2)
  have hc7b := Real.cos_le_one (-an 1 + an 3 * 2)
  have hc8a := Real.neg_one_le_cos (an 2)
  have hc8b := Real.cos_le_one (an 2)
  have hc9a := Real.neg_one_le_cos (-an 2 + an 3 * 2)
  have hc9b := Real.cos_le_one (-an 2 + an 3 * 2)
  have hc10a := Real.neg_one_le_cos (an 3)
  have hc10b := Real.cos_le_one (an 3)
  have hc11a := Real.neg_one_le_cos (an 4)
  have hc11b := Real.cos_le_one (an 4)
  have hc12a := Real.neg_one_le_cos (-an 3 + an 4 * 2)
  have hc12b := Real.cos_le_one (-an 3 + an 4 * 2)
  have hc13a := Real.neg_one_le_cos (an 3 * (-2) + an 4 * 3)
  have hc13b := Real.cos_le_one (an 3 * (-2) + an 4 * 3)
  have hc14a := Real.neg_one_le_cos (an 3 * (-3) + an 4 * 4)
  have hc14b := Real.cos_le_one (an 3 * (-3) + an 4 * 4)
  have hc15a := Real.neg_one_le_cos (an 3 * (-4) + an 4 * 5)
  have hc15b := Real.cos_le_one (an 3 * (-4) + an 4 * 5)
  have hc16a := Real.neg_one_le_cos (an 3 * (-5) + an 4 * 6)
  have hc16b := Real.cos_le_one (an 3 * (-5) + an 4 * 6)
  have hc17a := Real.neg_one_le_cos (an 3 * (-6) + an 4 * 7)
  have hc17b := Real.cos_le_one (an 3 * (-6) + an 4 * 7)
  constructor <;> linarith

/-- Series bound: |titaniaElem3| is at most 0.04 for any angle vectors. -/
theorem titaniaElem3_bound (an ae ai : Fin 5 → ℝ) : |titaniaElem3 an ae ai| ≤ 0.04 := by
  unfold titaniaElem3
  rw [abs_le]
  have hs0a := Real.neg_one_le_sin (ae 0)
  have hs0b := Real.sin_le_one (ae 0)
  have hs1a := Real.neg_one_le_sin (ae 1)
  have hs1b := Real.sin_le_one (ae 1)
  have hs2a := Real.neg_one_le_sin (ae 2)
  have hs2b := Real.sin_le_one (ae 2)
  have hs3a := Real.neg_one_le_sin (ae 3)
  have hs3b := Real.sin_le_one (ae 3)
  have hs4a := Real.neg_one_le_sin (ae 4)
  have hs4b := Real.sin_le_one (ae 4)
  have hs5a := Real.neg_one_le_sin (an 1)
  have hs5b := Real.sin_le_one (an 1)
  have hs6a := Real.neg_one_le_sin (an 3)
  have hs6b := Real.sin_le_one (an 3)
  have hs7a := Real.neg_one_le_sin (-an 1 + an 3 * 2)
  have hs7b := Real.sin_le_one (-an 1 + an 3 * 2)
  have hs8a := Real.neg_one_le_sin (an 2)
  have hs8b := Real.sin_le_one (an 2)
  have hs9a := Real.neg_one_le_sin (-an 2 + an 3 * 2)
  have hs9b := Real.sin_le_one (-an 2 + an 3 * 2)
  have hs10a := Real.neg_one_le_sin (an 3)
  have hs10b := Real.sin_le_one (an 3)
  have hs11a := Real.neg_one_le_sin (an 4)
  have hs11b := Real.sin_le_one (an 4)
  have hs12a := Real.neg_one_le_sin (-an 3 + an 4 * 2)
  have hs12b := Real.sin_le_one (-an 3 + an 4 * 2)
  have hs13a := Real.neg_one_le_sin (an 3 * (-2) + an 4 * 3)
  have hs13b := Real.sin_le_one (an 3 * (-2) + an 4 * 3)
  have hs14a := Real.neg_one_le_sin (an 3 * (-3) + an 4 * 4)
  have hs14b := Real.sin_le_one (an 3 * (-3) + an 4 * 4)
  have hs15a := Real.neg_one_le_sin (an 3 * (-4) + an 4 * 5)
  have hs15b := Real.sin_le_one (an 3 * (-4) + an 4 * 5)
  have hs16a := Real.neg_one_le_sin (an 3 * (-5) + an 4 * 6)
  have hs16b := Real.sin_le_one (an 3 * (-5) + an 4 * 6)
  have hs17a := Real.neg_one_le_sin (an 3 * (-6) + an 4 * 7)
  have hs17b := Real.sin_le_one (an 3 * (-6) + an 4 * 7)
  constructor <;> linarith

/-- Series bound: |titaniaElem4| is at most 0.04 for any angle vectors. -/
theorem titaniaElem4_bound (an ae ai : Fin 5 → ℝ) : |titaniaElem4 an ae ai| ≤ 0.04 := by
  unfold titaniaElem4
  rw [abs_le]
  have hc0a := Real.neg_one_le_cos (ai 0)
  have hc0b := Real.cos_le_one (ai 0)
  have hc1a := Real.neg_one_le_cos (ai 1)
  have hc1b := Real.cos_le_one (ai 1)
  have hc2a := Real.neg_one_le_cos (ai 2)
  have hc2b := Real.cos_le_one (ai 2)
  have hc3a := Real.neg_one_le_cos (ai 3)
  have hc3b := Real.cos_le_one (ai 3)
  have hc4a := Real.neg_one_le_cos (ai 4)
  have hc4b := Real.cos_le_one (ai 4)
  constructor <;> linarith

/-- Series bound: |titaniaElem5| is at most 0.04 for any angle vectors. -/
theorem titaniaElem5_bound (an ae ai : Fin 5 → ℝ) : |titaniaElem5 an ae ai| ≤ 0.04 := by
  unfold titaniaElem5
  rw [abs_le]
  have hs0a := Real.neg_one_le_sin (ai 0)
  have hs0b := Real.sin_le_one (ai 0)
  have hs1a := Real.neg_one_le_sin (ai 1)
  have hs1b := Real.sin_le_one (ai 1)
  have hs2a := Real.neg_one_le_sin (ai 2)
  have hs2b := Real.sin_le_one (ai 2)
  have hs3a := Real.neg_one_le_sin (ai 3)
  have hs3b := Real.sin_le_one (ai 3)
  have hs4a := Real.neg_one_le_sin (ai 4)
  have hs4b := Real.sin_le_one (ai 4)
  constructor <;> linarith

/-- Series bound: |oberonElem2| is at most 0.04 for any angle vectors. -/
theorem oberonElem2_bound (an ae ai : Fin 5 → ℝ) : |oberonElem2 an ae ai| ≤ 0.04 := by
  unfold oberonElem2
  rw [abs_le]
  have hc0a := Real.neg_one_le_cos (ae 1)
  have hc0b := Real.cos_le_one (ae 1)
  have hc1a := Real.neg_one_le_cos (ae 2)
  have hc1b := Real.cos_le_one (ae 2)
  have hc2a := Real.neg_one_le_cos (ae 3)
  have hc2b := Real.cos_le_one (ae 3)
  have hc3a := Real.neg_one_le_cos (ae 4)
  have hc3b := Real.cos_le_one (ae 4)
  have hc4a := Real.neg_one_le_cos (an 1)
  have hc4b := Real.cos_le_one (an 1)
  have hc5a := Real.neg_one_le_cos (-an 1 + an 4 * 2)
  have hc5b := Real.cos_le_one (-an 1 + an 4 * 2)
  have hc6a := Real.neg_one_le_cos (an 2)
  have hc6b := Real.cos_le_one (an 2)
  have hc7a := Real.neg_one_le_cos (an 3)
  have hc7b := Real.cos_le_one (an 3)
  have hc8a := Real.neg_one_le_cos (an 4)
  have hc8b := Real.cos_le_one (an 4)
  have hc9a := Real.neg_one_le_cos (-an 3 + an 4 * 2)
  have hc9b := Real.cos_le_one (-an 3 + an 4 * 2)
  have hc10a := Real.neg_one_le_cos (an 3 * (-2) + an 4 * 3)
  have hc10b := Real.cos_le_one (an 3 * (-2) + an 4 * 3)
  have hc11a := Real.neg_one_le_cos (an 3 * (-3) + an 4 * 4)
  have hc11b := Real.cos_le_one (an 3 * (-3) + an 4 * 4)
  have hc12a := Real.neg_one_le_cos (an 3 * (-4) + an 4 * 5)
  have hc12b := Real.cos_le_one (an 3 * (-4) + an 4 * 5)
  have hc13a := Real.neg_one_le_cos (an 3 * (-5) + an 4 * 6)
  have hc13b := Real.cos_le_one (an 3 * (-5) + an 4 * 6)
  have hc14a := Real.neg_one_le_cos (an 3 * (-6) + an 4 * 7)
  have hc14b := Real.cos_le_one (an 3 * (-6) + an 4 * 7)
  have hc15a := Real.neg_one_le_cos (an 3 * (-7) + an 4 * 8)
  have hc15b := Real.cos_le_one (an 3 * (-7) + an 4 * 8)
  constructor <;> linarith

/-- Series bound: |oberonElem3| is at most 0.04 for any angle vectors. -/
theorem oberonElem3_bound (an ae ai : Fin 5 → ℝ) : |oberonElem3 an ae ai| ≤ 0.04 := by
  unfold oberonElem3
  rw [abs_le]
  have hs0a := Real.neg_one_le_sin (ae 1)
  have hs0b := Real.sin_le_one (ae 1)
  have hs1a := Real.neg_one_le_sin (ae 2)
  have hs1b := Real.sin_le_one (ae 2)
  have hs2a := Real.neg_one_le_sin (ae 3)
  have hs2b := Real.sin_le_one (ae 3)
  have hs3a := Real.neg_one_le_sin (ae 4)
  have hs3b := Real.sin_le_one (ae 4)
  have hs4a := Real.neg_one_le_sin (an 1)
  have hs4b := Real.sin_le_one (an 1)
  have hs5a := Real.neg_one_le_sin (-an 1 + an 4 * 2)
  have hs5b := Real.sin_le_one (-an 1 + an 4 * 2)
  have hs6a := Real.neg_one_le_sin (an 2)
  have hs6b := Real.sin_le_one (an 2)
  have hs7a := Real.neg_one_le_sin (an 3)
  have hs7b := Real.sin_le_one (an 3)
  have hs8a := Real.neg_one_le_sin (an 4)
  have hs8b := Real.sin_le_one (an 4)
  have hs9a := Real.neg_one_le_sin (-an 3 + an 4 * 2)
  have hs9b := Real.sin_le_one (-an 3 + an 4 * 2)
  have hs10a := Real.neg_one_le_sin (an 3 * (-2) + an 4 * 3)
  have hs10b := Real.sin_le_one (an 3 * (-2) + an 4 * 3)
  have hs11a := Real.neg_one_le_sin (an 3 * (-3) + an 4 * 4)
  have hs11b := Real.sin_le_one (an 3 * (-3) + an 4 * 4)
  have hs12a := Real.neg_one_le_sin (an 3 * (-4) + an 4 * 5)
  have hs12b := Real.sin_le_one (an 3 * (-4) + an 4 * 5)
  have hs13a := Real.neg_one_le_sin (an 3 * (-5) + an 4 * 6)
  have hs13b := Real.sin_le_one (an 3 * (-5) + an 4 * 6)
  have hs14a := Real.neg_one_le_sin (an 3 * (-6) + an 4 * 7)
  have hs14b := Real.sin_le_one (an 3 * (-6) + an 4 * 7)
  have hs15a := Real.neg_one_le_sin (an 3 * (-7) + an 4 * 8)
  have hs15b := Real.sin_le_one (an 3 * (-7) + an 4 * 8)
  constructor <;> linarith

/-- Series bound: |oberonElem4| is at most 0.04 for any angle vectors. -/
theorem oberonElem4_bound (an ae ai : Fin 5 → ℝ) : |oberonElem4 an ae ai| ≤ 0.04 := by
  unfold oberonElem4
  rw [abs_le]
  have hc0a := Real.neg_one_le_cos (ai 0)
  have hc0b := Real.cos_le_one (ai 0)
  have hc1a := Real.neg_one_le_cos (ai 1)
  have hc1b := Real.cos_le_one (ai 1)
  have hc2a := Real.neg_one_le_cos (ai 2)
  have hc2b := Real.cos_le_one (ai 2)
  have hc3a := Real.neg_one_le_cos (ai 3)
  have hc3b := Real.cos_le_one (ai 3)
  have hc4a := Real.neg_one_le_cos (ai 4)
  have hc4b := Real.cos_le_one (ai 4)
  constructor <;> linarith

/-- Series bound: |oberonElem5| is at most 0.04 for any angle vectors. -/
theorem oberonElem5_bound (an ae ai : Fin 5 → ℝ) : |oberonElem5 an ae ai| ≤ 0.04 := by
  unfold oberonElem5
  rw [abs_le]
  have hs0a := Real.neg_one_le_sin (ai 0)
  have hs0b := Real.sin_le_one (ai 0)
  have hs1a := Real.neg_one_le_sin (ai 1)
  have hs1b := Real.sin_le_one (ai 1)
  have hs2a := Real.neg_one_le_sin (ai 2)
  have hs2b := Real.sin_le_one (ai 2)
  have hs3a := Real.neg_one_le_sin (ai 3)
  have hs3b := Real.sin_le_one (ai 3)
  have hs4a := Real.neg_one_le_sin (ai 4)
  have hs4b := Real.sin_le_one (ai 4)
  constructor <;> linarith

/-- Claim C7: for each of the five satellites and every time, the element
vector produced by CalcGust86Elem satisfies `h² + k² < 1` (elements 2, 3)
and `p² + q² < 1` (elements 4, 5), so the square-root arguments
`1 − h² − k²` and `1 − p² − q²` taken by the rectangular state converter
are strictly positive and the Kepler solver's eccentricity-below-one
precondition holds on every façade query. -/
theorem elements_ecc_and_inc_lt_one :
    ∀ (t : ℝ) (s : Satellite),
      (calcGust86Elem t s 2) ^ 2 + (calcGust86Elem t s 3) ^ 2 < 1 ∧
      (calcGust86Elem t s 4) ^ 2 + (calcGust86Elem t s 5) ^ 2 < 1 := by
  intro t s
  cases s with
  | Miranda =>
    exact ⟨sq_add_sq_lt_one_of_small (mirandaElem2_bound (anglesN gust86Tables t) (anglesE gust86Tables t) (anglesI gust86Tables t)) (mirandaElem3_bound (anglesN gust86Tables t) (anglesE gust86Tables t) (anglesI gust86Tables t)),
           sq_add_sq_lt_one_of_small (mirandaElem4_bound (anglesN gust86Tables t) (anglesE gust86Tables t) (anglesI gust86Tables t)) (mirandaElem5_bound (anglesN gust86Tables t) (anglesE gust86Tables t) (anglesI gust86Tables t))⟩
  | Ariel =>
    exact ⟨sq_add_sq_lt_one_of_small (arielElem2_bound (anglesN gust86Tables t) (anglesE gust86Tables t) (anglesI gust86Tables t)) (arielElem3_bound (anglesN gust86Tables t) (anglesE gust86Tables t) (anglesI gust86Tables t)),
           sq_add_sq_lt_one_of_small (arielElem4_bound (anglesN gust86Tables t) (anglesE gust86Tables t) (anglesI gust86Tables t)) (arielElem5_bound (anglesN gust86Tables t) (anglesE gust86Tables t) (anglesI gust86Tables t))⟩
  | Umbriel =>
    exact ⟨sq_add_sq_lt_one_of_small (umbrielElem2_bound (anglesN gust86Tables t) (anglesE gust86Tables t) (anglesI gust86Tables t)) (umbrielElem3_bound (anglesN gust86Tables t) (anglesE gust86Tables t) (anglesI gust86Tables t)),
           sq_add_sq_lt_one_of_small (umbrielElem4_bound (anglesN gust86Tables t) (anglesE gust86Tables t) (anglesI gust86Tables t)) (umbrielElem5_bound (anglesN gust86Tables t) (anglesE gust86Tables t) (anglesI gust86Tables t))⟩
  | Titania =>
    exact ⟨sq_add_sq_lt_one_of_small (titaniaElem2_bound (anglesN gust86Tables t) (anglesE gust86Tables t) (anglesI gust86Tables t)) (titaniaElem3_bound (anglesN gust86Tables t) (anglesE gust86Tables t) (anglesI gust86Tables t)),
           sq_add_sq_lt_one_of_small (titaniaElem4_bound (anglesN gust86Tables t) (anglesE gust86Tables t) (anglesI gust86Tables t)) (titaniaElem5_bound (anglesN gust86Tables t) (anglesE gust86Tables t) (anglesI gust86Tables t))⟩
  | Oberon =>
    exact ⟨sq_add_sq_lt_one_of_small (oberonElem2_bound (anglesN gust86Tables t) (anglesE gust86Tables t) (anglesI gust86Tables t)) (oberonElem3_bound (anglesN gust86Tables t) (anglesE gust86Tables t) (anglesI gust86Tables t)),
           sq_add_sq_lt_one_of_small (oberonElem4_bound (anglesN gust86Tables t) (anglesE gust86Tables t) (anglesI gust86Tables t)) (oberonElem5_bound (anglesN gust86Tables t) (anglesE gust86Tables t) (anglesI gust86Tables t))⟩

end

end Gust86
